import Mathlib

/-!
Verification development for the data-access-optimizer repository.

The repository has two halves:
 * `src/generator/parquet_indexer.py` — `ManifestGenerator` and its concrete
   subclass `GeneTissueManifestGenerator`: chunked ingestion of a line stream,
   per-line extraction via the regex pattern
   `.*/v1/ad/([^/]+)/model_tissue_(\d+)\.tl$`, and parquet writing with a
   bounded row-group size.
 * `src/lookup/parquet_lookup.py` (abstract `ParquetLookup`) and
   `src/lookup/manifest_lookup.py` (standalone `ManifestLookup`): loading a
   parquet file into an in-memory DuckDB store and answering
   equality-conjunction predicate queries.

Strings are embedded as `List Char`, Python ints as `Int`, a loaded DuckDB
table as a list of rows, and raised Python exceptions as values of `Err`
through `Except`.  The embedded analytical store (DuckDB) is treated as a
black box that evaluates a conjunction of parameterized equality conditions
over the loaded table; generating that conjunction is what the source code
does and what is embedded here.
-/

/-- Exception values raised by the embedded code.  Each constructor is one
raise site of the Python source:
 * `emptyPredicate` — `ValueError("At least one ... must be provided.")`
   (`manifest_lookup.py` line 205, `parquet_lookup.py` line 143);
 * `badColumn` — `ValueError("query parameters must be one of ...")` /
   `ValueError("column_name must be ...")`;
 * `intCoercion` — `ValueError` raised by Python `int()` on a non-numeric
   string (`manifest_lookup.py` line 220);
 * `fileNotFound` — `FileNotFoundError` (`manifest_lookup.py` line 164);
 * `attributeError` — `AttributeError` from reading `self.local_file_path`
   before `__init__` assigns it (`parquet_lookup.py` line 61);
 * `closedConnection` — `AttributeError: 'NoneType' object has no attribute
   'execute'` from calling through `self.con` after `close()` set it to
   `None`; this is the StateError of the specification's taxonomy;
 * `sqlSyntax` — the DuckDB parser error on a generated query that ends in
   `WHERE` with no condition;
 * `transport` — a failed S3 download re-raised as `ValueError`
   (`_read_s3_file`). -/
inductive Err
  | emptyPredicate
  | badColumn
  | intCoercion
  | fileNotFound
  | attributeError
  | closedConnection
  | sqlSyntax
  | transport
deriving DecidableEq, Repr

/-- A Python `str | int` value (predicate parameters and column values). -/
inductive Value
  | str (s : List Char)
  | int (n : Int)
deriving DecidableEq, Repr

/-- Python truthiness of a `str | int` value: the empty string and the
integer 0 are falsy, everything else is truthy. -/
def Value.truthy : Value → Bool
  | .str s => !s.isEmpty
  | .int n => n != 0

/-- Python `str.strip()` restricted to whitespace characters: drop leading and
trailing whitespace. -/
def pyStrip (s : List Char) : List Char :=
  ((s.dropWhile Char.isWhitespace).reverse.dropWhile Char.isWhitespace).reverse

/-- Drop `p` from the front of `s`, or fail if `s` does not start with `p`. -/
def dropPrefixL : List Char → List Char → Option (List Char)
  | [], s => some s
  | _ :: _, [] => none
  | p :: ps, c :: cs => if p = c then dropPrefixL ps cs else none

/-- Tail of the digit-group check for Python `int()`: after the first digit,
every underscore must be followed by a digit and every other character must be
a digit. -/
def digitsUTail : List Char → Bool
  | [] => true
  | ['_'] => false
  | '_' :: c :: rest => c.isDigit && digitsUTail rest
  | c :: rest => c.isDigit && digitsUTail rest

/-- Digit-group acceptance of Python `int()`: one or more ASCII digits with
single underscores allowed between digits. -/
def digitsUValid : List Char → Bool
  | [] => false
  | c :: rest => c.isDigit && digitsUTail rest

/-- Numeric value of a digit group (underscores ignored). -/
def digitsVal (s : List Char) : Nat :=
  (s.filter (fun c => c ≠ '_')).foldl (fun a c => a * 10 + (c.toNat - 48)) 0

/-- Python `int(s)` on a string: surrounding whitespace stripped, optional
single sign, then a digit group; `none` models the raised `ValueError`. -/
def pyInt (s : List Char) : Option Int :=
  let t := pyStrip s
  match t with
  | '+' :: rest => if digitsUValid rest then some ((digitsVal rest : Nat) : Int) else none
  | '-' :: rest => if digitsUValid rest then some (-((digitsVal rest : Nat) : Int)) else none
  | _ => if digitsUValid t then some ((digitsVal t : Nat) : Int) else none

/-- Worker for `replaceAll`, with fuel bounding the recursion depth; the fuel
is always instantiated with the length of the subject string, which suffices
because every step consumes at least one character of it when the pattern is
non-empty (all call sites use non-empty patterns). -/
def replaceAllAux (pat rep : List Char) : Nat → List Char → List Char
  | _, [] => []
  | 0, s => s
  | fuel + 1, c :: cs =>
    if pat.isPrefixOf (c :: cs) then rep ++ replaceAllAux pat rep fuel ((c :: cs).drop pat.length)
    else c :: replaceAllAux pat rep fuel cs

/-- Python `s.replace(pat, rep)`: replace every non-overlapping occurrence of
`pat` in `s`, scanning left to right. -/
def replaceAll (s pat rep : List Char) : List Char :=
  replaceAllAux pat rep s.length s

namespace GeneTissueManifestGenerator

/-- One extracted record, the dictionary built by
`GeneTissueManifestGenerator.process_line`
(`parquet_indexer.py` lines 292-296). -/
structure GenRecord where
  gene_id : List Char
  tissue_id : Int
  file_path : List Char
deriving DecidableEq, Repr

/-- Models `extract_gene_and_tissue_id` (`parquet_indexer.py` lines 252-267)
with the pattern the repository instantiates it with in `main` and in
`generate_manifest`: `.*/v1/ad/([^/]+)/model_tissue_(\d+)\.tl$`.

A (newline-free) line matches this pattern exactly when it decomposes as
`p ++ "/v1/ad/" ++ g ++ "/model_tissue_" ++ d ++ ".tl"` with `g` non-empty and
free of `/` and `d` non-empty digits.  That decomposition is unique: `d` must
be the maximal digit run immediately before the trailing `".tl"` (the
character before the run is the `_` of `model_tissue_`, not a digit), and `g`,
holding no `/`, must be the full final `/`-separated component before
`"/model_tissue_"` (the preceding character is the last `/` of `"/v1/ad/"`).
The function therefore scans from the end of the string: strip `".tl"`, take
the digit run as group 2, strip `"/model_tissue_"` (reversed:
`"_eussit_ledom/"`), take the `/`-free run as group 1, and require the
remainder to continue with `"/v1/ad/"` (reversed: `"/da/1v/"`). -/
def extract_gene_and_tissue_id (s : List Char) : Option (List Char × List Char) :=
  match dropPrefixL ("lt.".toList) s.reverse with
  | none => none
  | some r1 =>
    let d := r1.takeWhile Char.isDigit
    if d.isEmpty then none
    else
      match dropPrefixL ("_eussit_ledom/".toList) (r1.dropWhile Char.isDigit) with
      | none => none
      | some r3 =>
        let g := r3.takeWhile (fun c => c ≠ '/')
        if g.isEmpty then none
        else
          match dropPrefixL ("/da/1v/".toList) (r3.dropWhile (fun c => c ≠ '/')) with
          | none => none
          | some _ => some (g.reverse, d.reverse)

/-- Models `process_line` (`parquet_indexer.py` lines 269-296): extract the
two capture groups, coerce the tissue id with `int()` (a coercion failure is a
skip, not an error), and build the record with `file_path` equal to the
(already stripped) input line.  The `line_num` parameter of the source only
feeds log messages and is omitted. -/
def process_line (line : List Char) : Option GenRecord :=
  match extract_gene_and_tissue_id line with
  | none => none
  | some (g, d) =>
    match pyInt d with
    | none => none
    | some n => some ⟨g, n, line⟩

/-- Models `ManifestGenerator._process_chunk` (`parquet_indexer.py` lines
56-89): strip each line, skip blank lines, keep extracted records in order,
and count lines whose extraction returns `None`.  The source returns only the
record list and logs the invalid count; both are returned here. -/
def process_chunk (lines : List (List Char)) : List GenRecord × Nat :=
  lines.foldl
    (fun acc line =>
      let l := pyStrip line
      if l.isEmpty then acc
      else
        match process_line l with
        | none => (acc.1, acc.2 + 1)
        | some r => (acc.1 ++ [r], acc.2))
    ([], 0)

end GeneTissueManifestGenerator

namespace ManifestGenerator

/-- Models the row-group size computed in `write_optimized_parquet`
(`parquet_indexer.py` line 186):
`optimal_row_group_size = min(50000, max(1000, len(df) // 10))`. -/
def optimal_row_group_size (recordCount : Nat) : Nat :=
  min 50000 (max 1000 (recordCount / 10))

end ManifestGenerator

namespace ManifestLookup

/-- The `Record` class of `manifest_lookup.py` (lines 15-22), field order as
in its constructor. -/
structure Record where
  tissue_id : Int
  gene_id : List Char
  file_path : List Char
deriving DecidableEq, Repr

/-- Truthiness of the optional `gene_id` argument: absent (`None`) and the
empty string are falsy. -/
def geneTruthy : Option (List Char) → Bool
  | none => false
  | some s => !s.isEmpty

/-- Truthiness of the optional `tissue_id` argument: absent (`None`), the
empty string and the integer 0 are falsy. -/
def tissueTruthy : Option Value → Bool
  | none => false
  | some v => v.truthy

/-- Models the tissue-id coercion inside `ManifestLookup._query`
(`manifest_lookup.py` lines 215-220): on a string argument, if it starts with
`"model_"` every occurrence of `"model_"` is removed (`str.replace` replaces
all occurrences, not just the front); then, if the result starts with
`"tissue_"`, every occurrence of `"tissue_"` is removed; finally the string is
coerced with `int()`, whose failure raises `ValueError`.  Integer arguments
pass through unchanged. -/
def normalizeTissue : Value → Except Err Int
  | .int n => .ok n
  | .str s =>
    let s1 := if ("model_".toList).isPrefixOf s then replaceAll s ("model_".toList) [] else s
    let s2 := if ("tissue_".toList).isPrefixOf s1 then replaceAll s1 ("tissue_".toList) [] else s1
    match pyInt s2 with
    | some n => .ok n
    | none => .error .intCoercion

/-- The tissue coercion lifted to the optional argument. -/
def normalizeTissueOpt : Option Value → Except Err (Option Int)
  | none => .ok none
  | some t => (normalizeTissue t).map some

/-- The generated SQL condition `gene_id = ?`: present exactly when the
argument `is not None`, so an empty string is still filtered on. -/
def geneCond (gene_id : Option (List Char)) (r : Record) : Bool :=
  match gene_id with
  | none => true
  | some g => r.gene_id == g

/-- The generated SQL condition `tissue_id = ?` on the coerced value. -/
def tissueCond (tval : Option Int) (r : Record) : Bool :=
  match tval with
  | none => true
  | some v => r.tissue_id == v

/-- Models `ManifestLookup._query` (`manifest_lookup.py` lines 194-229).  The
connection state is `some table` for an open connection with the loaded
`manifest` table and `none` after `close()` set `self.con = None`.  Steps, in
source order: raise `ValueError` when both arguments are falsy (truthiness,
not presence); add the `gene_id = ?` condition when `gene_id is not None`;
coerce the tissue argument (which can raise); then call
`self.con.execute(...)`, which on a `None` connection raises
`AttributeError` (`closedConnection`) and otherwise returns the rows
satisfying the conjunction of the generated equality conditions. -/
def query (con : Option (List Record)) (gene_id : Option (List Char))
    (tissue_id : Option Value) : Except Err (List Record) :=
  if !(geneTruthy gene_id || tissueTruthy tissue_id) then .error .emptyPredicate
  else
    match normalizeTissueOpt tissue_id with
    | .error e => .error e
    | .ok tval =>
      match con with
      | none => .error .closedConnection
      | some table => .ok (table.filter (fun r => geneCond gene_id r && tissueCond tval r))

/-- Models `ManifestLookup.exists` (lines 63-75): both arguments are passed to
`_query` and the result is `len(result) > 0`; exceptions propagate. -/
def existsPred (con : Option (List Record)) (gene_id : List Char)
    (tissue_id : Value) : Except Err Bool :=
  (query con (some gene_id) (some tissue_id)).map (fun r => decide (0 < r.length))

/-- Models `ManifestLookup.get_records_for_tissue` (lines 120-130). -/
def get_records_for_tissue (con : Option (List Record)) (tissue_id : Value) :
    Except Err (List Record) :=
  query con none (some tissue_id)

/-- Models `ManifestLookup.get_records_for_gene` (lines 108-118). -/
def get_records_for_gene (con : Option (List Record)) (gene_id : List Char) :
    Except Err (List Record) :=
  query con (some gene_id) none

/-- Models `ManifestLookup.get_s3_file_path` (lines 77-89): the `file_path` of
the first returned row, or `None` when no row matches. -/
def get_s3_file_path (con : Option (List Record)) (gene_id : List Char)
    (tissue_id : Value) : Except Err (Option (List Char)) :=
  (query con (some gene_id) (some tissue_id)).map (fun r => r.head?.map (·.file_path))

/-- Models `ManifestLookup.get_file_path` (lines 91-106): look the S3 path up,
return `None` when it is absent or falsy, otherwise download it
(`_read_s3_file`, an external effect abstracted as the `download`
parameter) and return the local path. -/
def get_file_path (download : List Char → Except Err (List Char))
    (con : Option (List Record)) (gene_id : List Char) (tissue_id : Value) :
    Except Err (Option (List Char)) := do
  let p? ← get_s3_file_path con gene_id tissue_id
  match p? with
  | none => pure none
  | some p => if p.isEmpty then pure none else (download p).map some

/-- Models `ManifestLookup.get_unique` (lines 132-138): the column must be
`gene_id` or `tissue_id` (else `ValueError`), then `SELECT DISTINCT` on the
open connection; on a closed connection `self.con.execute` raises
`AttributeError`.  DISTINCT is modelled as first-occurrence deduplication (the
source leaves the order unspecified). -/
def get_unique (con : Option (List Record)) (column_name : List Char) :
    Except Err (List Value) :=
  if !(column_name == "gene_id".toList || column_name == "tissue_id".toList) then
    .error .badColumn
  else
    match con with
    | none => .error .closedConnection
    | some table =>
      if column_name == "gene_id".toList then
        .ok ((table.map (fun r => Value.str r.gene_id)).eraseDups)
      else
        .ok ((table.map (fun r => Value.int r.tissue_id)).eraseDups)

/-- Models `ManifestLookup.close` (lines 231-235): when a live connection is
present it is closed and `self.con` is set to `None`; otherwise nothing
changes. -/
def close (con : Option (List Record)) : Option (List Record) :=
  match con with
  | some _ => none
  | none => none

/-- Models `ManifestLookup._load_file` (lines 155-164): resolve through S3
when a bucket was parsed from the source (the download abstracted as
`readS3`), otherwise use the given path directly; then require the resolved
path to be truthy and to exist on the filesystem (abstracted as the predicate
`fs`), else raise `FileNotFoundError`. -/
def load_file (fs : List Char → Bool) (readS3 : List Char → Except Err (List Char))
    (bucket : Option (List Char)) (manifest_file_path : List Char) :
    Except Err (List Char) := do
  let p ← match bucket with
    | some _ => readS3 manifest_file_path
    | none => pure manifest_file_path
  if p.isEmpty || !fs p then .error .fileNotFound else .ok p

end ManifestLookup

namespace ParquetLookup

/-- The schema contract a concrete `ParquetLookup` subclass supplies through
its abstract methods `_get_table_name`, `_get_required_columns` and
`_get_queryable_columns` (`parquet_lookup.py` lines 110-123).  The repository
contains no concrete subclass, so theorems quantify over contracts. -/
structure Contract where
  tableName : List Char
  requiredColumns : List (List Char)
  queryableColumns : List (List Char)

/-- A row of the loaded table: column name to value.  Tables loaded by
`_load_data` are validated to contain every required column. -/
abbrev Row := List (List Char × Value)

/-- Value of a named column in a row. -/
def lookupCol (r : Row) (c : List Char) : Option Value :=
  match r.find? (fun p => p.1 == c) with
  | some p => some p.2
  | none => none

/-- The predicate entries surviving the falsy-value filter of
`ParquetLookup._query` (lines 150-152): entries whose value is falsy are
skipped when the SQL conditions and parameters are built. -/
def surviving (qp : List (List Char × Value)) : List (List Char × Value) :=
  qp.filter (fun p => p.2.truthy)

/-- Models `_query_data` (lines 130-132) running the generated SQL against the
store: `self.con.execute` on a `None` connection raises `AttributeError`
(`closedConnection`); when every predicate entry was dropped, the generated
text ends in `WHERE` with no condition, which the SQL parser rejects
(`sqlSyntax`); otherwise the store returns the required columns (in contract
order) of the rows satisfying the conjunction of the bound equality
conditions. -/
def execute (C : Contract) (con : Option (List Row)) (conds : List (List Char × Value)) :
    Except Err (List (List (Option Value))) :=
  match con with
  | none => .error .closedConnection
  | some table =>
    if conds.isEmpty then .error .sqlSyntax
    else
      .ok ((table.filter (fun r => conds.all (fun p => lookupCol r p.1 == some p.2))).map
        (fun r => C.requiredColumns.map (fun c => lookupCol r c)))

/-- Models `ParquetLookup._query` (`parquet_lookup.py` lines 134-158).  Steps,
in source order: raise `ValueError` on an empty parameter dictionary; raise
`ValueError` when any key is outside the queryable columns; drop falsy-valued
entries while building the `key = ?` conditions; then hand the generated query
and parameters to `_query_data` (`execute`). -/
def query (C : Contract) (con : Option (List Row)) (qp : List (List Char × Value)) :
    Except Err (List (List (Option Value))) :=
  if qp.isEmpty then .error .emptyPredicate
  else if qp.any (fun p => !(C.queryableColumns.contains p.1)) then .error .badColumn
  else execute C con (surviving qp)

/-- Models `ParquetLookup._exists` (lines 160-169): `len(_query(...)) > 0`,
exceptions propagating. -/
def existsPred (C : Contract) (con : Option (List Row)) (qp : List (List Char × Value)) :
    Except Err Bool :=
  (query C con qp).map (fun r => decide (0 < r.length))

/-- Models `ParquetLookup._get_local_path` (`parquet_lookup.py` lines 54-62):
with a bucket parsed from the source, delegate to `_read_s3_file` (abstracted
as `readS3`); otherwise return the path when it exists on the filesystem
(abstracted as `fs`).  In the failure branch the source first evaluates the
f-string `f"Parquet file path not found: {self.local_file_path}"`, but
`__init__` assigns `self.local_file_path` only from this method's return
value, so the attribute does not exist yet and the branch raises
`AttributeError` before the `raise FileNotFoundError` line is reached. -/
def get_local_path (fs : List Char → Bool) (readS3 : List Char → Except Err (List Char))
    (bucket : Option (List Char)) (file_path : List Char) : Except Err (List Char) :=
  match bucket with
  | some _ => readS3 file_path
  | none => if fs file_path then .ok file_path else .error .attributeError

/-- Models `ParquetLookup.close` (lines 179-183), identical to
`ManifestLookup.close`. -/
def close (con : Option (List Row)) : Option (List Row) :=
  match con with
  | some _ => none
  | none => none

end ParquetLookup

/-- The contract corresponding to `ManifestLookup`'s schema (table `manifest`,
required columns `gene_id`, `tissue_id`, `file_path`, queryable columns
`gene_id` and `tissue_id`), used to evaluate the abstract `ParquetLookup`
framework on concrete inputs. -/
def manifestContract : ParquetLookup.Contract :=
  ⟨"manifest".toList,
   ["gene_id".toList, "tissue_id".toList, "file_path".toList],
   ["gene_id".toList, "tissue_id".toList]⟩

/-- Helper: when every predicate key is queryable, the out-of-domain check of
`ParquetLookup.query` passes. -/
theorem ParquetLookup.any_not_queryable_eq_false (C : ParquetLookup.Contract)
    (qp : List (List Char × Value))
    (h : qp.all (fun p => C.queryableColumns.contains p.1) = true) :
    qp.any (fun p => !(C.queryableColumns.contains p.1)) = false := by
  rw [List.any_eq_false]
  intro x hx
  rw [List.all_eq_true] at h
  have hc := h x hx
  rw [hc]
  decide

/-- Helper: a non-empty list is not `isEmpty`. -/
theorem isEmpty_eq_false_of_ne_nil {α : Type} {l : List α} (h : l ≠ []) :
    l.isEmpty = false := by
  cases l with
  | nil => exact absurd rfl h
  | cons a t => rfl

/-- C1: for the build pipeline configured with the gene/tissue pattern,
processing the three input lines `a/v1/ad/BRCA1/model_tissue_7.tl`,
`a/v1/ad/TP53/model_tissue_3.tl`, `garbage/line` yields exactly the two valid
records (gene_id BRCA1 / tissue_id 7 and gene_id TP53 / tissue_id 3, each
with the line itself as file_path) and an invalid count of exactly 1. -/
theorem c1_pipeline_scenario :
    GeneTissueManifestGenerator.process_chunk
      ["a/v1/ad/BRCA1/model_tissue_7.tl".toList,
       "a/v1/ad/TP53/model_tissue_3.tl".toList,
       "garbage/line".toList]
    = ([⟨"BRCA1".toList, 7, "a/v1/ad/BRCA1/model_tissue_7.tl".toList⟩,
        ⟨"TP53".toList, 3, "a/v1/ad/TP53/model_tissue_3.tl".toList⟩], 1) := by
  rfl

/-- C2: tissue-id normalization is consistent — for every loaded table,
looking tissues up with the string "model_12", the string "tissue_12", the
string "12" and the integer 12 all select the identical row set, the
recognized marker being stripped before integer coercion. -/
theorem c2_tissue_normalization_consistent (t : List ManifestLookup.Record) :
    ManifestLookup.get_records_for_tissue (some t) (.str "model_12".toList)
      = ManifestLookup.get_records_for_tissue (some t) (.int 12) ∧
    ManifestLookup.get_records_for_tissue (some t) (.str "tissue_12".toList)
      = ManifestLookup.get_records_for_tissue (some t) (.int 12) ∧
    ManifestLookup.get_records_for_tissue (some t) (.str "12".toList)
      = ManifestLookup.get_records_for_tissue (some t) (.int 12) := by
  exact ⟨rfl, rfl, rfl⟩

/-- C3: for every contract, connection state and table contents, a query with
an empty predicate fails with the empty-predicate QueryError rather than
returning rows — in the generic `ParquetLookup` framework and in
`ManifestLookup` (where an empty predicate is both arguments absent). -/
theorem c3_empty_predicate_rejected :
    (∀ (C : ParquetLookup.Contract) (con : Option (List ParquetLookup.Row)),
      ParquetLookup.query C con [] = .error .emptyPredicate) ∧
    (∀ con : Option (List ManifestLookup.Record),
      ManifestLookup.query con none none = .error .emptyPredicate) := by
  exact ⟨fun _ _ => rfl, fun _ => rfl⟩

/-- C4: exists(p) returns true exactly when query(p) returns at least one
row, for every predicate, contract and connection state, in both lookup
classes (errors propagate identically, so the equivalence holds without
restriction, covering in particular every valid predicate on a loaded
table). -/
theorem c4_exists_iff_query_nonempty :
    (∀ (C : ParquetLookup.Contract) (con : Option (List ParquetLookup.Row))
        (qp : List (List Char × Value)),
      ParquetLookup.existsPred C con qp = .ok true ↔
        ∃ rows, ParquetLookup.query C con qp = .ok rows ∧ 0 < rows.length) ∧
    (∀ (con : Option (List ManifestLookup.Record)) (g : List Char) (tv : Value),
      ManifestLookup.existsPred con g tv = .ok true ↔
        ∃ rows, ManifestLookup.query con (some g) (some tv) = .ok rows ∧ 0 < rows.length) := by
  constructor
  · intro C con qp
    cases h : ParquetLookup.query C con qp <;>
      simp [ParquetLookup.existsPred, h, Except.map]
  · intro con g tv
    cases h : ManifestLookup.query con (some g) (some tv) <;>
      simp [ManifestLookup.existsPred, h, Except.map]

/-- C5: for every record count n ≥ 1 the row-group size used when writing the
parquet artifact equals min(50000, max(1000, n / 10)) with integer division;
5000 records give 1000 (lower bound binds) and 2000000 records give 50000
(upper bound binds). -/
theorem c5_row_group_size (n : Nat) (_h : 1 ≤ n) :
    ManifestGenerator.optimal_row_group_size n = min 50000 (max 1000 (n / 10)) ∧
    ManifestGenerator.optimal_row_group_size 5000 = 1000 ∧
    ManifestGenerator.optimal_row_group_size 2000000 = 50000 := by
  exact ⟨rfl, rfl, rfl⟩

theorem c5_row_group_size_witness :
    1 ≤ 5000 ∧
    (ManifestGenerator.optimal_row_group_size 5000 = min 50000 (max 1000 (5000 / 10)) ∧
     ManifestGenerator.optimal_row_group_size 5000 = 1000 ∧
     ManifestGenerator.optimal_row_group_size 2000000 = 50000) :=
  ⟨by decide, c5_row_group_size 5000 (by decide)⟩

/-- C6 evaluation: with a source that is not a remote-store reference
(`bucket = none`) and a local path absent from the filesystem,
`ParquetLookup._get_local_path` raises AttributeError (its error-log f-string
reads `self.local_file_path`, which `__init__` has not yet assigned), not the
FileNotFoundError its docstring documents; `ManifestLookup._load_file` on the
same input raises FileNotFoundError as the claim states. -/
theorem c6_missing_local_file_behaviour :
    ParquetLookup.get_local_path (fun _ => false) (fun p => .ok p) none
      "missing.parquet".toList = .error .attributeError ∧
    ManifestLookup.load_file (fun _ => false) (fun p => .ok p) none
      "missing.parquet".toList = .error .fileNotFound := by
  exact ⟨rfl, rfl⟩

/-- C7 counterexample: a non-empty predicate whose keys are all queryable but
whose every value is falsy (here the single entry gene_id = "") does not make
the query succeed — the generated SQL ends at WHERE with no condition and
execution fails with a parser error, even on a loaded, non-empty table. -/
theorem c7_all_falsy_predicate_fails :
    ParquetLookup.query manifestContract
      (some [[("gene_id".toList, Value.str "BRCA1".toList),
              ("tissue_id".toList, Value.int 7),
              ("file_path".toList, Value.str "f".toList)]])
      [("gene_id".toList, Value.str [])]
    = .error .sqlSyntax := by
  rfl

/-- C7 amended: for every non-empty predicate whose keys are all queryable,
entries with falsy values are dropped before the filter is built; when at
least one entry survives, the query succeeds and filters only on the
surviving entries; when every entry's value is empty/unset, the generated SQL
is malformed and execution fails with a syntax error instead of
succeeding. -/
theorem c7_falsy_values_dropped (C : ParquetLookup.Contract)
    (t : List ParquetLookup.Row) (qp : List (List Char × Value))
    (h1 : qp ≠ [])
    (h2 : qp.all (fun p => C.queryableColumns.contains p.1) = true) :
    (ParquetLookup.surviving qp ≠ [] →
      ParquetLookup.query C (some t) qp =
        .ok ((t.filter (fun r => (ParquetLookup.surviving qp).all
                (fun p => ParquetLookup.lookupCol r p.1 == some p.2))).map
              (fun r => C.requiredColumns.map (fun c => ParquetLookup.lookupCol r c)))) ∧
    (ParquetLookup.surviving qp = [] →
      ParquetLookup.query C (some t) qp = .error .sqlSyntax) := by
  have e1 : qp.isEmpty = false := isEmpty_eq_false_of_ne_nil h1
  have e2 := ParquetLookup.any_not_queryable_eq_false C qp h2
  constructor
  · intro h3
    have e3 : (ParquetLookup.surviving qp).isEmpty = false := isEmpty_eq_false_of_ne_nil h3
    rw [ParquetLookup.query, e1, e2]
    rw [ParquetLookup.execute]
    rw [e3]
    rfl
  · intro h3
    have e3 : (ParquetLookup.surviving qp).isEmpty = true := by
      rw [h3]
      rfl
    rw [ParquetLookup.query, e1, e2]
    rw [ParquetLookup.execute]
    rw [e3]
    rfl

theorem c7_falsy_values_dropped_witness :
    ([("gene_id".toList, Value.str "BRCA1".toList), ("tissue_id".toList, Value.int 0)] ≠
        ([] : List (List Char × Value))) ∧
    ParquetLookup.query manifestContract
      (some [[("gene_id".toList, Value.str "BRCA1".toList),
              ("tissue_id".toList, Value.int 7),
              ("file_path".toList, Value.str "f".toList)]])
      [("gene_id".toList, Value.str "BRCA1".toList), ("tissue_id".toList, Value.int 0)]
    = .ok [[some (Value.str "BRCA1".toList), some (Value.int 7), some (Value.str "f".toList)]] :=
  ⟨by decide, by
    have h := (c7_falsy_values_dropped manifestContract
      [[("gene_id".toList, Value.str "BRCA1".toList),
        ("tissue_id".toList, Value.int 7),
        ("file_path".toList, Value.str "f".toList)]]
      [("gene_id".toList, Value.str "BRCA1".toList), ("tissue_id".toList, Value.int 0)]
      (by decide) (by decide)).1 (by decide)
    exact h.trans (by rfl)⟩

/-- C8: close() is idempotent — a second close on an already-closed instance
succeeds and changes nothing — and query, exists and get_unique attempted
after close fail explicitly with the closed-connection error (the StateError
of the taxonomy), never silently no-op; in both lookup classes. -/
theorem c8_close_idempotent_then_state_error :
    (∀ con, ManifestLookup.close (ManifestLookup.close con) = ManifestLookup.close con) ∧
    ManifestLookup.close none = none ∧
    (∀ con, ParquetLookup.close (ParquetLookup.close con) = ParquetLookup.close con) ∧
    (∀ (g : List Char) (n : Int), g ≠ [] →
      ManifestLookup.query none (some g) (some (.int n)) = .error .closedConnection) ∧
    (∀ (g : List Char) (n : Int), g ≠ [] →
      ManifestLookup.existsPred none g (.int n) = .error .closedConnection) ∧
    ManifestLookup.get_unique none "gene_id".toList = .error .closedConnection ∧
    (∀ (C : ParquetLookup.Contract) (qp : List (List Char × Value)), qp ≠ [] →
      qp.all (fun p => C.queryableColumns.contains p.1) = true →
      ParquetLookup.query C none qp = .error .closedConnection) := by
  refine ⟨fun con => by cases con <;> rfl, rfl, fun con => by cases con <;> rfl,
    ?_, ?_, rfl, ?_⟩
  · intro g n hg
    have : ManifestLookup.geneTruthy (some g) = true := by
      cases g with
      | nil => exact absurd rfl hg
      | cons c cs => rfl
    simp [ManifestLookup.query, this, ManifestLookup.normalizeTissueOpt,
      ManifestLookup.normalizeTissue, Except.map]
  · intro g n hg
    have : ManifestLookup.geneTruthy (some g) = true := by
      cases g with
      | nil => exact absurd rfl hg
      | cons c cs => rfl
    simp [ManifestLookup.existsPred, ManifestLookup.query, this,
      ManifestLookup.normalizeTissueOpt, ManifestLookup.normalizeTissue, Except.map]
  · intro C qp h1 h2
    have e1 : qp.isEmpty = false := isEmpty_eq_false_of_ne_nil h1
    have e2 := ParquetLookup.any_not_queryable_eq_false C qp h2
    rw [ParquetLookup.query, e1, e2]
    rfl

theorem c8_close_idempotent_then_state_error_witness :
    ("BRCA1".toList ≠ ([] : List Char)) ∧
    ManifestLookup.query none (some "BRCA1".toList) (some (.int 7)) = .error .closedConnection ∧
    ManifestLookup.existsPred none "BRCA1".toList (.int 7) = .error .closedConnection ∧
    ParquetLookup.query manifestContract none [("gene_id".toList, Value.str "BRCA1".toList)]
      = .error .closedConnection :=
  ⟨by decide,
   c8_close_idempotent_then_state_error.2.2.2.1 "BRCA1".toList 7 (by decide),
   c8_close_idempotent_then_state_error.2.2.2.2.1 "BRCA1".toList 7 (by decide),
   c8_close_idempotent_then_state_error.2.2.2.2.2.2 manifestContract
     [("gene_id".toList, Value.str "BRCA1".toList)] (by decide) (by decide)⟩

/-- C9: in ManifestLookup._query presence of an argument is decided by
truthiness, not by being supplied — gene_id absent with tissue_id the integer
0 raises the empty-predicate error, as does gene_id the empty string with
tissue_id absent, even though a parameter was explicitly provided; yet with a
non-empty gene_id, tissue_id = 0 is accepted and filtered on. -/
theorem c9_truthiness_not_presence :
    (∀ con : Option (List ManifestLookup.Record),
      ManifestLookup.query con none (some (.int 0)) = .error .emptyPredicate) ∧
    (∀ con : Option (List ManifestLookup.Record),
      ManifestLookup.query con (some []) none = .error .emptyPredicate) ∧
    (∀ t : List ManifestLookup.Record,
      ManifestLookup.query (some t) (some "BRCA1".toList) (some (.int 0))
        = .ok (t.filter (fun r => r.gene_id == "BRCA1".toList && r.tissue_id == 0))) := by
  exact ⟨fun _ => rfl, fun _ => rfl, fun _ => rfl⟩

/-- C10: querying by a string tissue identifier that is not an integer after
optional marker stripping (here "abc") raises the int() coercion ValueError
rather than returning an empty result, and the error propagates through
exists, get_records_for_tissue and get_file_path, for every loaded table and
every download behaviour. -/
theorem c10_non_numeric_tissue_raises (t : List ManifestLookup.Record)
    (dl : List Char → Except Err (List Char)) :
    ManifestLookup.query (some t) none (some (.str "abc".toList)) = .error .intCoercion ∧
    ManifestLookup.existsPred (some t) "G".toList (.str "abc".toList) = .error .intCoercion ∧
    ManifestLookup.get_records_for_tissue (some t) (.str "abc".toList) = .error .intCoercion ∧
    ManifestLookup.get_file_path dl (some t) "G".toList (.str "abc".toList)
      = .error .intCoercion := by
  exact ⟨rfl, rfl, rfl, rfl⟩
